import Mathlib

/-!
Verification development for the spellbook training pipeline
(src/globalVariables.py, src/models.py, src/magicClassification.py).

The Python source is shallowly embedded below:

* Keras layers of a built model are values of `Layer` (a kind tag plus the
  mutable `trainable` flag); `unfreezeModel` from src/models.py becomes a pure
  function from a layer list to a layer list, with Python's negative-index
  slice semantics made explicit (`pyIndex`).
* The symbolic computation graph that `buildClassificationImageNetModel`
  assembles is the inductive `Tensor`; the backbone instantiation
  (a Keras applications constructor plus pretrained weights) is abstracted to
  the leaf `Tensor.backbone` carrying the constructor name, pooling mode and
  the EfficientNet drop-connect rate, since no claim inspects its inside.
* Fallible Python code (calls that raise TypeError, unbound names) returns
  `Except PyError`.
* Rates and learning-rate constants are embedded as `ℚ`.
* The unseeded `sklearn.utils.shuffle` call and the seeded `KFold` index
  permutation are threaded as explicit permutation parameters: a seeded
  generator is abstracted as an arbitrary permutation of `List.range n`
  (fixed across reruns), an unseeded one as a permutation parameter that a
  rerun is free to change.
-/

namespace Spellbook

/-- Exceptions raised by the embedded Python fragments. -/
inductive PyError
  | typeError
  | nameError
  deriving DecidableEq, Repr

/-! ### Python call arity (src/magicClassification.py lines 174-181 / 411-418) -/

/-- Parameter list of `buildClassificationImageNetModel` as declared in
src/models.py lines 160-167. -/
def buildClassificationImageNetModelParams : List String :=
  ["inputs",
   "model_name", "model_imagenet",
   "pooling", "dropout_connect_rate", "do_batch_norm", "initial_dropout",
   "concat_features_before", "concat_features_after",
   "fc_layers", "dropout_rates",
   "num_classes", "activation",
   "do_predictions"]

/-- Positional arguments that `classificationCustom` passes to
`buildClassificationImageNetModel` (src/magicClassification.py lines 174-181,
identically at lines 411-418): `IMAGENET_WEIGHTS` is inserted after
`model_imagenet`. -/
def classificationCustomBuildCallArgs : List String :=
  ["input_layers",
   "model_name", "model_imagenet", "IMAGENET_WEIGHTS",
   "MODEL_POOLING", "DROP_CONNECT_RATE", "DO_BATCH_NORM", "INITIAL_DROPOUT",
   "CONCAT_FEATURES_BEFORE", "CONCAT_FEATURES_AFTER",
   "FC_LAYERS", "DROPOUT_RATES",
   "NUM_CLASSES", "OUTPUT_ACTIVATION",
   "DO_PREDICTIONS"]

/-- Outcome of a Python positional call to a function with no defaults and no
varargs: it binds iff the argument count equals the parameter count,
otherwise the interpreter raises TypeError. -/
def pythonPositionalCall (nargs nparams : Nat) : Except PyError Unit :=
  if nargs = nparams then Except.ok () else Except.error PyError.typeError

/-- The four-way model-construction branch of `classificationCustom`
(src/magicClassification.py lines 99-174): BUILD_AUTOENCODER, then
USE_TFIMM_MODELS, then LOAD_MODEL, else the ImageNet-classifier build. -/
inductive ModelBuildBranch
  | autoencoder
  | tfimm
  | loadSavedModel
  | imagenetBuilder
  deriving DecidableEq, Repr

/-- Branch selection of `classificationCustom`. -/
def modelBuildBranch (build_autoencoder use_tfimm_models load_model_flag : Bool) :
    ModelBuildBranch :=
  if build_autoencoder then ModelBuildBranch.autoencoder
  else if use_tfimm_models then ModelBuildBranch.tfimm
  else if load_model_flag then ModelBuildBranch.loadSavedModel
  else ModelBuildBranch.imagenetBuilder

/-! ### Layers and `unfreezeModel` (src/models.py lines 55-106) -/

/-- Kind tag of a Keras layer, as far as the source inspects it
(`isinstance(layer, tf.keras.layers.BatchNormalization)` is the only test). -/
inductive LayerKind
  | inputLayer
  | conv
  | batchNorm
  | dropoutLayer
  | dense
  | pooling
  | other
  deriving DecidableEq, Repr

/-- A layer of a built model: its kind and its `trainable` attribute. -/
structure Layer where
  kind : LayerKind
  trainable : Bool
  deriving DecidableEq, Repr

/-- Number of `some` entries of a Python list, as counted by the two
`for layer in ...: if layer != None` loops of `unfreezeModel`. -/
def countNonNone {α : Type} : List (Option α) → Nat
  | [] => 0
  | none :: xs => countNonNone xs
  | some _ :: xs => 1 + countNonNone xs

/-- Python slice-endpoint semantics for a list of length `L`: a negative
index counts from the end and clamps at 0, a nonnegative one clamps at `L`. -/
def pyIndex (L : Nat) (i : Int) : Nat :=
  if i < 0 then ((L : Int) + i).toNat else min i.toNat L

/-- The body of the `for layer in model.layers[start:stop]` loop of
`unfreezeModel`: every layer whose position falls in `[start, stop)` and that
is not a BatchNormalization layer gets `trainable = True`; all other layers
are untouched. The running position is the first argument. -/
def applyUnfreezeAux (start stop : Nat) : Nat → List Layer → List Layer
  | _, [] => []
  | i, l :: ls =>
    (if start ≤ i ∧ i < stop ∧ l.kind ≠ LayerKind.batchNorm then
      { l with trainable := true }
    else l) :: applyUnfreezeAux start stop (i + 1) ls

/-- The slice-and-unfreeze step of `unfreezeModel` (src/models.py lines
100-104): the loop runs over
`model.layers[-num_layers_unfreeze + 1 : -num_last_layers]` where
`num_layers_unfreeze = num_layers + num_last_layers`. -/
def applyUnfreeze (model : List Layer) (num_layers num_last_layers : Nat) :
    List Layer :=
  let num_layers_unfreeze := num_layers + num_last_layers
  let L := model.length
  let start := pyIndex L (1 - (num_layers_unfreeze : Int))
  let stop := pyIndex L (-(num_last_layers : Int))
  applyUnfreezeAux start stop 0 model

/-- Embedding of `unfreezeModel` (src/models.py lines 55-106). The module
globals `FC_LAYERS` and `DROPOUT_RATES` that the function reads are passed
explicitly. `num_last_layers` starts at `3 + num_input_layers`, grows by one
if `batch_norm`, and by one per non-None entry of `FC_LAYERS` and of
`DROPOUT_RATES` (the latter two loops run only when `FC_LAYERS` is not None;
iterating a None `DROPOUT_RATES` there would raise TypeError). -/
def unfreezeModel (model : List Layer) (num_input_layers : Nat)
    (batch_norm : Bool) (num_layers : Nat)
    (fc_layers : Option (List (Option Nat)))
    (dropout_rates : Option (List (Option ℚ))) : Except PyError (List Layer) :=
  let num_last_layers := 3 + num_input_layers
  let num_last_layers := if batch_norm then num_last_layers + 1 else num_last_layers
  match fc_layers with
  | none => Except.ok (applyUnfreeze model num_layers num_last_layers)
  | some fcs =>
    match dropout_rates with
    | none => Except.error PyError.typeError
    | some drs =>
      Except.ok (applyUnfreeze model num_layers
        (num_last_layers + countNonNone fcs + countNonNone drs))

/-! ### Unfreeze count selection (src/magicClassification.py lines 183-203) -/

/-- The `NUM_UNFREEZE_LAYERS` dictionary of src/globalVariables.py lines
59-83: only four backbones carry a count, every other listed backbone maps
to None. -/
def NUM_UNFREEZE_LAYERS (name : String) : Option Nat :=
  if name = "EfficientNetB5" then some 181
  else if name = "EfficientNetB6" then some 211
  else if name = "EfficientNetB7" then some 256
  else if name = "InceptionV3" then some 63
  else none

/-- The `to_unfreeze` selection of `classificationCustom`
(src/magicClassification.py lines 189-201): with UNFREEZE_FULL the whole
layer count; otherwise VGG16 and VGG19 also get the whole layer count, and
every other backbone gets its `NUM_UNFREEZE_LAYERS` entry (possibly None). -/
def selectToUnfreeze (unfreeze_full : Bool) (model_name : String)
    (num_layers : Nat) : Option Nat :=
  if unfreeze_full then some num_layers
  else if model_name = "VGG16" ∨ model_name = "VGG19" then some num_layers
  else NUM_UNFREEZE_LAYERS model_name

/-- The whole UNFREEZE block of `classificationCustom`
(src/magicClassification.py lines 183-203): count the model's layers, select
`to_unfreeze`, and call `unfreezeModel`. A None `to_unfreeze` reaches the
addition `num_layers + num_last_layers` inside `unfreezeModel` and raises
TypeError there. -/
def unfreezeStep (model : List Layer) (model_name : String)
    (unfreeze_full : Bool) (num_input_layers : Nat) (do_batch_norm : Bool)
    (fc_layers : Option (List (Option Nat)))
    (dropout_rates : Option (List (Option ℚ))) : Except PyError (List Layer) :=
  match selectToUnfreeze unfreeze_full model_name model.length with
  | some to_unfreeze =>
      unfreezeModel model num_input_layers do_batch_norm to_unfreeze
        fc_layers dropout_rates
  | none => Except.error PyError.typeError

/-! ### Symbolic computation graph of `buildClassificationImageNetModel`
(src/models.py lines 160-331) -/

/-- Whether the first character list begins with the second one. -/
def charsStartWith : List Char → List Char → Bool
  | [], _ => true
  | _ :: _, [] => false
  | p :: ps, c :: cs => (p = c) && charsStartWith ps cs

/-- Whether the pattern occurs as a contiguous run of the character list. -/
def charsContain (pat : List Char) : List Char → Bool
  | [] => charsStartWith pat []
  | c :: cs => charsStartWith pat (c :: cs) || charsContain pat cs

/-- Python's substring containment test `pat in s`. -/
def strContainsSub (s pat : String) : Bool := charsContain pat.data s.data

/-- Symbolic Keras tensor. `backbone name pooling dropConnect` stands for the
output of the pretrained ImageNet body (`model_imagenet(include_top=False,
weights='imagenet', input_tensor=inputs[0], ...)`); `concatT t aux` is
`Concatenate(name='concat_features')([t] + aux)`. -/
inductive Tensor
  | inputT : Nat → Tensor
  | backbone : String → Option String → Option ℚ → Tensor
  | batchNormT : Tensor → Tensor
  | dropoutT : ℚ → Tensor → Tensor
  | denseT : Nat → Option String → Tensor → Tensor
  | concatT : Tensor → List Tensor → Tensor

/-- A built Keras functional model: its declared inputs and its single
output tensor. -/
structure KerasModel where
  inputs : List Tensor
  output : Tensor

/-- Steps 1-2 of the builder (src/models.py lines 236-255): backbone output,
optional BatchNormalization, optional initial Dropout. The drop-connect rate
is forwarded to the backbone constructor only when the substring
EfficientNet occurs in the model name. -/
def preLadderT (model_name model_imagenet : String) (pooling : Option String)
    (dropout_connect_rate : ℚ) (do_batch_norm : Bool)
    (initial_dropout : Option ℚ) : Tensor :=
  let drop_connect :=
    if strContainsSub model_name "EfficientNet" then
      some dropout_connect_rate
    else none
  let fe := Tensor.backbone model_imagenet pooling drop_connect
  let fe := if do_batch_norm then Tensor.batchNormT fe else fe
  match initial_dropout with
  | some r => Tensor.dropoutT r fe
  | none => fe

/-- One iteration of the `for fc, dropout in zip(fc_layers, dropout_rates)`
loop (src/models.py lines 270-294), acting on the running pair
(feature_extractor, concat_layer). A None fc `continue`s (skipping the
dropout check too); otherwise a Dense-ReLU layer consumes the concat layer
if one is pending (resetting it to None) or the running tensor, and a
non-None dropout rate appends a Dropout layer. -/
def ladderStep (st : Tensor × Option Tensor) (p : Option Nat × Option ℚ) :
    Tensor × Option Tensor :=
  match p.1 with
  | none => st
  | some fc =>
    let fe :=
      match st.2 with
      | some c => Tensor.denseT fc (some "relu") c
      | none => Tensor.denseT fc (some "relu") st.1
    match p.2 with
    | none => (fe, none)
    | some d => (Tensor.dropoutT d fe, none)

/-- The whole FC/dropout ladder: fold `ladderStep` over the zipped
`fc_layers`/`dropout_rates` pairs. -/
def runLadder (fcs : List (Option Nat)) (drs : List (Option ℚ))
    (fe : Tensor) (cl : Option Tensor) : Tensor × Option Tensor :=
  (fcs.zip drs).foldl ladderStep (fe, cl)

/-- Embedding of `buildClassificationImageNetModel` (src/models.py lines
160-331), with its declared 14 parameters (the `model_imagenet` constructor
is carried as its name into the backbone leaf; `inputs` is the list of input
tensors, of which element 0 feeds the backbone and the rest are the
auxiliary-feature inputs `inputs[1:]`). `zip` of a list with None raises
TypeError, reached when exactly one of `fc_layers`/`dropout_rates` is None.
After the ladder, `concat_layer` is unconditionally reassigned: the
late-fusion concat when `concat_features_after`, else None — so a pending
early-fusion concat that no FC layer consumed is discarded here
(src/models.py lines 296-305). -/
def buildClassificationImageNetModel (inputs : List Tensor)
    (model_name model_imagenet : String) (pooling : Option String)
    (dropout_connect_rate : ℚ) (do_batch_norm : Bool)
    (initial_dropout : Option ℚ)
    (concat_features_before concat_features_after : Bool)
    (fc_layers : Option (List (Option Nat)))
    (dropout_rates : Option (List (Option ℚ)))
    (num_classes : Nat) (activation : Option String)
    (do_predictions : Bool) : Except PyError KerasModel :=
  let feature_extractor :=
    preLadderT model_name model_imagenet pooling dropout_connect_rate
      do_batch_norm initial_dropout
  let concat_layer : Option Tensor :=
    if concat_features_before then
      some (Tensor.concatT feature_extractor (inputs.drop 1))
    else none
  let ladder : Except PyError (Tensor × Option Tensor) :=
    match fc_layers, dropout_rates with
    | none, none => Except.ok (feature_extractor, concat_layer)
    | some fcs, some drs => Except.ok (runLadder fcs drs feature_extractor concat_layer)
    | _, _ => Except.error PyError.typeError
  match ladder with
  | Except.error e => Except.error e
  | Except.ok st =>
    let fe := st.1
    let concat_layer : Option Tensor :=
      if concat_features_after then
        some (Tensor.concatT fe (inputs.drop 1))
      else none
    if do_predictions then
      match concat_layer with
      | some c =>
          Except.ok { inputs := inputs, output := Tensor.denseT num_classes activation c }
      | none =>
          Except.ok { inputs := inputs, output := Tensor.denseT num_classes activation fe }
    else
      match concat_layer with
      | some c => Except.ok { inputs := inputs, output := c }
      | none => Except.ok { inputs := inputs, output := fe }

/-! ### Learning-rate policy selection (src/magicClassification.py lines
240-252, flags from src/globalVariables.py lines 152-175) -/

/-- A learning-rate schedule object as instantiated by the source: either
the `ExponentialDecay` schedule or a plain constant rate. -/
inductive LRSchedule
  | exponentialDecay : ℚ → Nat → ℚ → LRSchedule
  | constantRate : ℚ → LRSchedule
  deriving DecidableEq, Repr

/-- The optimizer object built inside the strategy scope. -/
inductive OptimizerV
  | adam : LRSchedule → OptimizerV
  | sgd : ℚ → ℚ → Bool → OptimizerV
  deriving DecidableEq, Repr

/-- What `classificationCustom` hands the training routine about
learning-rate policy: the optimizer (with its embedded schedule, if any)
plus the LR_LADDER and REDUCE_LR_PLATEAU flags forwarded verbatim in the
`classificationCustomTrain` call (src/magicClassification.py lines 282-283). -/
structure LRPolicySelection where
  optimizer : OptimizerV
  lr_ladder : Bool
  reduce_lr_plateau : Bool
  deriving DecidableEq, Repr

/-- Embedding of the optimizer/schedule selection
(src/magicClassification.py lines 240-252): LR_EXP selects Adam over an
ExponentialDecay schedule; otherwise the OPTIMIZER string picks plain Adam
or SGD; any other name leaves `optimizer` unbound (NameError at first use).
No mutual-exclusion check over the three policy flags appears anywhere in
the source; the ladder and plateau flags are forwarded untouched. -/
def lrPolicySetup (lr_exp lr_ladder reduce_lr_plateau : Bool)
    (optimizer_name : String) (learning_rate : ℚ) (lr_decay_steps : Nat)
    (lr_decay_rate momentum : ℚ) (nesterov : Bool) :
    Except PyError LRPolicySelection :=
  if lr_exp then
    Except.ok
      { optimizer :=
          OptimizerV.adam (LRSchedule.exponentialDecay learning_rate lr_decay_steps lr_decay_rate),
        lr_ladder := lr_ladder, reduce_lr_plateau := reduce_lr_plateau }
  else if optimizer_name = "Adam" then
    Except.ok
      { optimizer := OptimizerV.adam (LRSchedule.constantRate learning_rate),
        lr_ladder := lr_ladder, reduce_lr_plateau := reduce_lr_plateau }
  else if optimizer_name = "SGD" then
    Except.ok
      { optimizer := OptimizerV.sgd learning_rate momentum nesterov,
        lr_ladder := lr_ladder, reduce_lr_plateau := reduce_lr_plateau }
  else Except.error PyError.nameError

/-- LEARNING_RATE = 0.001 (src/globalVariables.py line 147). -/
def LEARNING_RATE : ℚ := 1 / 1000

/-- LR_DECAY_STEPS = 500 (src/globalVariables.py line 153). -/
def LR_DECAY_STEPS : Nat := 500

/-- LR_DECAY_RATE = 0.95 (src/globalVariables.py line 154). -/
def LR_DECAY_RATE : ℚ := 95 / 100

/-- MOMENTUM_VALUE = 0.8 (src/globalVariables.py line 149). -/
def MOMENTUM_VALUE : ℚ := 8 / 10

/-- NESTEROV = True (src/globalVariables.py line 150). -/
def NESTEROV : Bool := true

/-! ### K-fold splitting (src/magicClassification.py lines 74-89) -/

/-- Fold sizes of sklearn `KFold(k)` over `n` samples: the first `n % k`
folds have `n / k + 1` samples, the rest `n / k`. -/
def foldSizes (n k : Nat) : List Nat :=
  (List.range k).map (fun i => n / k + if i < n % k then 1 else 0)

/-- Cut a list into consecutive blocks of the given sizes. -/
def splitBlocks : List Nat → List Nat → List (List Nat)
  | [], _ => []
  | s :: ss, xs => xs.take s :: splitBlocks ss (xs.drop s)

/-- The validation index sets of `KFold(k, shuffle=True,
random_state=RANDOM_STATE).split` over `n` samples: consecutive blocks of
the seed-determined permutation `kperm` of `range n` (the Mersenne-Twister
output of the fixed seed is abstracted as the permutation parameter). -/
def kfoldValIndices (n k : Nat) (kperm : List Nat) : List (List Nat) :=
  splitBlocks (foldSizes n k) kperm

/-- `sklearn.utils.shuffle` on a path array: the unseeded generator draws a
permutation `s`, and entry `i` of the result is `paths[s[i]]`. Paths are
abstracted to numeric identifiers. -/
def shuffleBy (paths : List Nat) (s : List Nat) : List Nat :=
  s.map (fun j => paths.getD j 0)

/-- The per-fold validation path lists that `classificationCustom` materialises
(src/magicClassification.py lines 74-89): first the unseeded shuffle of the
path list, then `data_paths_list_shuffled[val_ix]` for each fold's
validation index block. -/
def classificationValSplits (paths s kperm : List Nat) (n k : Nat) :
    List (List Nat) :=
  let shuffled := shuffleBy paths s
  (kfoldValIndices n k kperm).map (fun ix => ix.map (fun j => shuffled.getD j 0))

/-- RANDOM_STATE = 1337 (src/globalVariables.py line 93). -/
def RANDOM_STATE : Nat := 1337

/-- NUM_FOLDS = 4 (src/globalVariables.py line 106). -/
def NUM_FOLDS : Nat := 4

/-! ### Loss aggregation (src/magicClassification.py lines 230-236) -/

/-- `tf.nn.compute_average_loss(per_example_loss,
global_batch_size=batch_size)`: the sum of the per-example losses divided by
the global batch size (not by the local replica batch size). -/
def compute_average_loss (per_example_loss : List ℚ)
    (global_batch_size : ℚ) : ℚ :=
  per_example_loss.sum / global_batch_size

/-- The nested `compute_total_loss` of `classificationCustom`
(src/magicClassification.py lines 233-236): apply the reduction-free loss
object to the replica's labels/predictions, obtaining that replica's
per-example loss vector, and normalise by the global batch size. -/
def compute_total_loss {α β : Type} (loss_object : α → β → List ℚ)
    (batch_size : ℚ) (labels : α) (predictions : β) : ℚ :=
  compute_average_loss (loss_object labels predictions) batch_size

/-! ### Concrete instances used by the theorems -/

/-- Default layer used with `List.get?`-free indexing. -/
def layerDefault : Layer := { kind := LayerKind.other, trainable := false }

/-- A 20-layer model with no BatchNormalization layer, for exercising
`unfreezeModel`. -/
def c2Model : List Layer := List.replicate 20 { kind := LayerKind.conv, trainable := false }

/-- A 23-layer stand-in for a built VGG16 graph: one input layer followed by
22 backbone/head layers, everything initially frozen. -/
def vggLayers : List Layer :=
  { kind := LayerKind.inputLayer, trainable := false }
    :: List.replicate 22 { kind := LayerKind.conv, trainable := false }

/-- A one-layer model whose only layer is a BatchNormalization layer. -/
def bnWitnessModel : List Layer :=
  [{ kind := LayerKind.batchNorm, trainable := false }]

/-- Input-layer list with one data input and one auxiliary-feature input. -/
def twoInputs : List Tensor := [Tensor.inputT 0, Tensor.inputT 1]

/-! ## Helper lemmas -/

/-- Pointwise description of the slice-unfreeze loop: entry `j` of the result
is entry `j` of the input, trainable-marked iff its absolute position
`i0 + j` lies in `[start, stop)` and it is not a BatchNormalization layer. -/
theorem applyUnfreezeAux_getElem? (start stop i0 : Nat) (l : List Layer) (j : Nat) :
    (applyUnfreezeAux start stop i0 l)[j]?
      = (l[j]?).map (fun x =>
          if start ≤ i0 + j ∧ i0 + j < stop ∧ x.kind ≠ LayerKind.batchNorm then
            { x with trainable := true }
          else x) := by
  induction l generalizing i0 j with
  | nil => simp [applyUnfreezeAux]
  | cons a t ih =>
    cases j with
    | zero => simp [applyUnfreezeAux]
    | succ j =>
      have h1 : i0 + (j + 1) = (i0 + 1) + j := by omega
      simp [applyUnfreezeAux, ih (i0 + 1) j, h1]

/-- A BatchNormalization layer keeps its `trainable` flag across
`applyUnfreeze`, whatever the slice bounds. -/
theorem applyUnfreeze_batchnorm (model : List Layer) (a b i : Nat) (x : Layer)
    (hx : model[i]? = some x) (hbn : x.kind = LayerKind.batchNorm) :
    (applyUnfreeze model a b)[i]?.map Layer.trainable = some x.trainable := by
  simp only [applyUnfreeze]
  rw [applyUnfreezeAux_getElem?, hx]
  simp [hbn]

/-- Flattening the blocks of `splitBlocks` recovers a prefix of the list, of
length the sum of the block sizes. -/
theorem splitBlocks_flatten (ss : List Nat) (xs : List Nat) :
    (splitBlocks ss xs).flatten = xs.take ss.sum := by
  induction ss generalizing xs with
  | nil => simp [splitBlocks]
  | cons s ss ih =>
    simp only [splitBlocks, List.flatten_cons, ih, List.sum_cons, List.take_add]

/-- Reading `List.range n` at an in-range position through `getD` yields the
position itself. -/
theorem getD_range_of_lt {n j : Nat} (h : j < n) : (List.range n).getD j 0 = j := by
  simp [List.getD_eq_getElem?_getD, List.getElem?_range h]

/-- Reading the reversed `List.range n` at an in-range position through
`getD` yields the mirrored position. -/
theorem getD_range_reverse_of_lt {n j : Nat} (h : j < n) :
    (List.range n).reverse.getD j 0 = n - 1 - j := by
  have h1 : j < (List.range n).reverse.length := by simpa using h
  have h2 : (List.range n).reverse[j] = n - 1 - j := by
    rw [List.getElem_reverse]
    simp
  simp [List.getD_eq_getElem?_getD, List.getElem?_eq_getElem h1, h2]

/-! ## Claim theorems -/

/-- C1: in the ImageNet-classifier build branch (BUILD_AUTOENCODER,
USE_TFIMM_MODELS and LOAD_MODEL all false), `classificationCustom` passes 15
positional arguments (IMAGENET_WEIGHTS inserted after model_imagenet) to
`buildClassificationImageNetModel`, whose definition declares 14 parameters,
so the call raises TypeError and no model is constructed on this path. -/
theorem C1_imagenet_call_arity_type_error :
    modelBuildBranch false false false = ModelBuildBranch.imagenetBuilder ∧
    classificationCustomBuildCallArgs.length = 15 ∧
    buildClassificationImageNetModelParams.length = 14 ∧
    pythonPositionalCall classificationCustomBuildCallArgs.length
        buildClassificationImageNetModelParams.length
      = Except.error PyError.typeError :=
  ⟨rfl, rfl, rfl, rfl⟩

/-- C2 evaluation: on a 20-layer model with no BatchNormalization layer,
with num_input_layers = 2, batch_norm = True, FC_LAYERS = [128],
DROPOUT_RATES = [0.5] and num_layers = 10, `unfreezeModel` trainable-marks
exactly 9 layers (positions 3..11, the slice layers[-17:-8]), not the 10 the
spec and the function's own docstring promise: the slice start
`-num_layers_unfreeze + 1` drops one layer from the span. -/
theorem C2_unfreeze_slice_marks_nine_layers :
    (unfreezeModel c2Model 2 true 10 (some [some 128]) (some [some (1/2)])).map
        (fun m => m.map Layer.trainable)
      = Except.ok
          (List.replicate 3 false ++ (List.replicate 9 true ++ List.replicate 8 false)) := by
  rfl

/-- C3 counterexample: with two policies active simultaneously (LR_EXP and
REDUCE_LR_PLATEAU both true), the learning-rate setup of
`classificationCustom` raises no configuration error at all: it returns the
Adam-over-ExponentialDecay optimizer and forwards the plateau flag, still
true, to the training call. -/
theorem C3_two_policies_no_error :
    lrPolicySetup true false true "Adam" LEARNING_RATE LR_DECAY_STEPS LR_DECAY_RATE
        MOMENTUM_VALUE NESTEROV
      = Except.ok
          { optimizer := OptimizerV.adam
              (LRSchedule.exponentialDecay LEARNING_RATE LR_DECAY_STEPS LR_DECAY_RATE),
            lr_ladder := false, reduce_lr_plateau := true } := by
  rfl

/-- C3 amended: `classificationCustom` performs no mutual-exclusion check on
the LR policy flags. With a recognized optimizer name the setup always
succeeds, whatever combination of LR_EXP, LR_LADDER and REDUCE_LR_PLATEAU is
supplied: LR_EXP alone decides whether the exponential-decay schedule object
is instantiated inside the optimizer, and the ladder and plateau flags are
forwarded unchanged to the training routine. -/
theorem C3_policy_flags_unchecked (lr_exp lr_ladder reduce_lr_plateau : Bool)
    (learning_rate : ℚ) (lr_decay_steps : Nat) (lr_decay_rate momentum : ℚ)
    (nesterov : Bool) :
    lrPolicySetup lr_exp lr_ladder reduce_lr_plateau "Adam" learning_rate
        lr_decay_steps lr_decay_rate momentum nesterov
      = Except.ok
          { optimizer :=
              if lr_exp then
                OptimizerV.adam
                  (LRSchedule.exponentialDecay learning_rate lr_decay_steps lr_decay_rate)
              else OptimizerV.adam (LRSchedule.constantRate learning_rate),
            lr_ladder := lr_ladder, reduce_lr_plateau := reduce_lr_plateau } := by
  cases lr_exp <;> rfl

/-- C5 counterexample: a 23-layer VGG16 model (input layer plus 22 frozen
backbone layers), UNFREEZE true, UNFREEZE_FULL false. The selection branch
sets to_unfreeze to the whole layer count, and `unfreezeModel` then marks
layers 0..18 trainable — the backbone is massively unfrozen, the opposite of
head-only training. -/
theorem C5_vgg_unfreezes_backbone :
    (unfreezeStep vggLayers "VGG16" false 1 false none none).map
        (fun m => m.map Layer.trainable)
      = Except.ok (List.replicate 19 true ++ List.replicate 4 false) := by
  rfl

/-- C5 amended: when UNFREEZE is true and UNFREEZE_FULL is false, the VGG16
and VGG19 branch sets to_unfreeze to the model's total layer count —
VGG-family models are always fully unfrozen (up to the structural-tail
exclusion and the BatchNorm skip inside `unfreezeModel`), not defaulted to
head-only training; the special case exists because NUM_UNFREEZE_LAYERS maps
both VGG entries to None. -/
theorem C5_vgg_bypasses_unfreeze_full (unfreeze_full : Bool) (n : Nat)
    (model : List Layer) (num_input_layers : Nat) (do_batch_norm : Bool)
    (fc_layers : Option (List (Option Nat)))
    (dropout_rates : Option (List (Option ℚ))) :
    selectToUnfreeze unfreeze_full "VGG16" n = some n ∧
    selectToUnfreeze unfreeze_full "VGG19" n = some n ∧
    unfreezeStep model "VGG16" unfreeze_full num_input_layers do_batch_norm
        fc_layers dropout_rates
      = unfreezeModel model num_input_layers do_batch_norm model.length
          fc_layers dropout_rates ∧
    unfreezeStep model "VGG19" unfreeze_full num_input_layers do_batch_norm
        fc_layers dropout_rates
      = unfreezeModel model num_input_layers do_batch_norm model.length
          fc_layers dropout_rates := by
  cases unfreeze_full <;> exact ⟨rfl, rfl, rfl, rfl⟩

/-- C6 counterexample: with concat_features_before and concat_features_after
both true, the build succeeds — no configuration error — and the resulting
graph carries both fusions: the early concat is consumed by the 256-unit FC
layer and the late concat feeds the prediction layer. -/
theorem C6_both_fusions_build_ok :
    buildClassificationImageNetModel twoInputs "InceptionV3" "InceptionV3" none
        (2/10) false none true true (some [some 256]) (some [some (1/2)]) 5
        (some "softmax") true
      = Except.ok
          { inputs := twoInputs,
            output := Tensor.denseT 5 (some "softmax")
              (Tensor.concatT
                (Tensor.dropoutT (1/2) (Tensor.denseT 256 (some "relu")
                  (Tensor.concatT (Tensor.backbone "InceptionV3" none none)
                    [Tensor.inputT 1])))
                [Tensor.inputT 1]) } := by
  rfl

/-- C6 amended: `buildClassificationImageNetModel` contains no check on the
fusion flags. With both concat_features_before and concat_features_after
true the build always succeeds (whenever fc_layers and dropout_rates are
both provided or both absent — a one-sided None raises TypeError in `zip`,
independent of the fusion flags), and both fusions can be active in one
graph: the early concat reaches the output through the first non-null FC
layer while the late concat is appended after the ladder. -/
theorem C6_fusion_conflict_not_checked (inputs : List Tensor) (mn mi : String)
    (pool : Option String) (dcr : ℚ) (bn : Bool) (idrop : Option ℚ)
    (fcs : List (Option Nat)) (drs : List (Option ℚ)) (nc : Nat)
    (act : Option String) (dp : Bool) :
    (∃ m, buildClassificationImageNetModel inputs mn mi pool dcr bn idrop
        true true (some fcs) (some drs) nc act dp = Except.ok m) ∧
    (∃ m, buildClassificationImageNetModel inputs mn mi pool dcr bn idrop
        true true none none nc act dp = Except.ok m) := by
  constructor
  · cases dp <;> exact ⟨_, rfl⟩
  · cases dp <;> exact ⟨_, rfl⟩

/-- C7: for fc_layers = [256, None, 64] and dropout_rates =
[0.5, None, 0.3] (with batch-norm, initial dropout and both fusions off),
the built graph is exactly dense(256, ReLU), dropout(0.5), dense(64, ReLU),
dropout(0.3) stacked on the backbone output, in that interleaved order, with
nothing emitted for the null slot — and the optional prediction layer, when
requested, sits on top of that chain. -/
theorem C7_ladder_interleaving (inputs : List Tensor) (mn mi : String)
    (pool : Option String) (dcr : ℚ) (nc : Nat) (act : Option String)
    (dp : Bool) :
    buildClassificationImageNetModel inputs mn mi pool dcr false none false false
        (some [some 256, none, some 64]) (some [some (1/2), none, some (3/10)])
        nc act dp
      = Except.ok
          { inputs := inputs,
            output :=
              (fun chain => if dp then Tensor.denseT nc act chain else chain)
                (Tensor.dropoutT (3/10) (Tensor.denseT 64 (some "relu")
                  (Tensor.dropoutT (1/2) (Tensor.denseT 256 (some "relu")
                    (preLadderT mn mi pool dcr false none))))) } := by
  cases dp <;> rfl

/-- C8 counterexample: feature-embedding build (do_predictions false) with
early fusion enabled, late fusion disabled and no FC ladder. The returned
output is the bare backbone tensor, not the early-fusion concatenation the
claim promises: the unconsumed early concat is overwritten by the
unconditional reassignment after the ladder. -/
theorem C8_early_fusion_discarded :
    buildClassificationImageNetModel twoInputs "InceptionV3" "InceptionV3" none
        (2/10) false none true false none none 5 none false
      = Except.ok
          { inputs := twoInputs,
            output := Tensor.backbone "InceptionV3" none none } ∧
    Tensor.backbone "InceptionV3" none none
      ≠ Tensor.concatT (Tensor.backbone "InceptionV3" none none)
          [Tensor.inputT 1] := by
  refine ⟨rfl, ?_⟩
  intro hcontra
  exact Tensor.noConfusion hcontra

/-- C8 amended: for every build with do_predictions false, the output is the
late-fusion concatenation when concat_features_after is true and otherwise
the running feature tensor after the FC ladder; the early-fusion concat
reaches the output only by being consumed by a non-null FC layer — with an
absent ladder and late fusion disabled the output is the pre-ladder feature
tensor, whatever concat_features_before was. -/
theorem C8_embed_output_last_fc_or_late_fusion (inputs : List Tensor)
    (mn mi : String) (pool : Option String) (dcr : ℚ) (bn : Bool)
    (idrop : Option ℚ) (cfb cfa : Bool) (fcs : List (Option Nat))
    (drs : List (Option ℚ)) (nc : Nat) (act : Option String) :
    (buildClassificationImageNetModel inputs mn mi pool dcr bn idrop cfb cfa
        none none nc act false
      = Except.ok
          { inputs := inputs,
            output :=
              if cfa then
                Tensor.concatT (preLadderT mn mi pool dcr bn idrop) (inputs.drop 1)
              else preLadderT mn mi pool dcr bn idrop }) ∧
    (buildClassificationImageNetModel inputs mn mi pool dcr bn idrop cfb cfa
        (some fcs) (some drs) nc act false
      = Except.ok
          { inputs := inputs,
            output :=
              (fun fe => if cfa then Tensor.concatT fe (inputs.drop 1) else fe)
                ((runLadder fcs drs (preLadderT mn mi pool dcr bn idrop)
                  (if cfb then
                    some (Tensor.concatT (preLadderT mn mi pool dcr bn idrop)
                      (inputs.drop 1))
                  else none)).1) }) := by
  constructor <;> cases cfb <;> cases cfa <;> rfl

/-- C4 counterexample: determinism of the splits fails. The KFold index
permutation drawn from the fixed RANDOM_STATE seed is abstracted as a
quantified permutation, and so are the permutations the unseeded
`sklearn.utils.shuffle` draws in the two runs; the statement that any two
runs over the same 100 paths agree is refuted by instantiating run one with
the identity shuffle and run two with the reversing shuffle. -/
theorem C4_rerun_splits_differ :
    ¬ (∀ s₁ s₂ kperm : List Nat,
        s₁.Perm (List.range 100) → s₂.Perm (List.range 100) →
        kperm.Perm (List.range 100) →
        classificationValSplits (List.range 100) s₁ kperm 100 4
          = classificationValSplits (List.range 100) s₂ kperm 100 4) := by
  intro h
  exact absurd
    (h (List.range 100) ((List.range 100).reverse) (List.range 100)
      (List.Perm.refl _) (List.reverse_perm _) (List.Perm.refl _))
    (by decide)

/-- C4 amended: for 100 paths and NUM_FOLDS = 4, the four validation index
blocks are pairwise disjoint and their union is exactly the 100 indices
(whatever permutation the seeded KFold generator produced), and the index
blocks are a function of that seed-determined permutation alone; but
`classificationCustom` first shuffles the path list with an unseeded
`sklearn.utils.shuffle`, so for every possible seeded KFold permutation
there are two runs (two ambient shuffle permutations) whose validation path
splits differ — path-level determinism fails. -/
theorem C4_kfold_partition_shuffle_unseeded (kperm : List Nat)
    (hk : kperm.Perm (List.range 100)) :
    (kfoldValIndices 100 4 kperm).Pairwise List.Disjoint ∧
    (kfoldValIndices 100 4 kperm).flatten.Perm (List.range 100) ∧
    ∃ s₁ s₂ : List Nat, s₁.Perm (List.range 100) ∧ s₂.Perm (List.range 100) ∧
      classificationValSplits (List.range 100) s₁ kperm 100 4
        ≠ classificationValSplits (List.range 100) s₂ kperm 100 4 := by
  have hlen : kperm.length = 100 := by simpa using hk.length_eq
  have hfold : foldSizes 100 4 = [25, 25, 25, 25] := by decide
  have hfl : (kfoldValIndices 100 4 kperm).flatten = kperm := by
    simp only [kfoldValIndices, hfold, splitBlocks_flatten]
    have hsum : ([25, 25, 25, 25] : List Nat).sum = 100 := by decide
    rw [hsum, ← hlen, List.take_length]
  have hnd : kperm.Nodup := hk.symm.nodup (List.nodup_range _)
  refine ⟨?_, ?_, ?_⟩
  · have hjoin : (kfoldValIndices 100 4 kperm).flatten.Nodup := by
      rw [hfl]; exact hnd
    exact (List.nodup_flatten.mp hjoin).2
  · rw [hfl]; exact hk
  · refine ⟨List.range 100, (List.range 100).reverse, List.Perm.refl _,
      List.reverse_perm _, ?_⟩
    intro heq
    have hshuf1 : shuffleBy (List.range 100) (List.range 100)
        = List.range 100 := by decide
    have hshuf2 : shuffleBy (List.range 100) ((List.range 100).reverse)
        = (List.range 100).reverse := by decide
    simp only [classificationValSplits, kfoldValIndices, hfold, hshuf1, hshuf2] at heq
    simp only [splitBlocks, List.map_cons] at heq
    injection heq with h0 hrest
    have hne : kperm.take 25 ≠ [] := by
      intro hnil
      rcases List.take_eq_nil_iff.mp hnil with h1 | h1
      · omega
      · rw [h1] at hlen
        simp at hlen
    rcases List.exists_cons_of_ne_nil hne with ⟨a, t, hat⟩
    rw [hat] at h0
    simp only [List.map_cons] at h0
    injection h0 with hhead htail
    have ha : a ∈ kperm := by
      refine List.mem_of_mem_take (n := 25) ?_
      rw [hat]
      exact List.mem_cons_self a t
    have ha100 : a < 100 := by
      have hmem := hk.mem_iff.mp ha
      simpa using hmem
    rw [getD_range_of_lt ha100, getD_range_reverse_of_lt ha100] at hhead
    omega

/-- C4 witness: the amended theorem instantiated at the identity permutation
standing for the seeded KFold draw. -/
theorem C4_kfold_partition_shuffle_unseeded_witness :
    (List.range 100).Perm (List.range 100) ∧
    ((kfoldValIndices 100 4 (List.range 100)).Pairwise List.Disjoint ∧
     (kfoldValIndices 100 4 (List.range 100)).flatten.Perm (List.range 100) ∧
     ∃ s₁ s₂ : List Nat, s₁.Perm (List.range 100) ∧ s₂.Perm (List.range 100) ∧
       classificationValSplits (List.range 100) s₁ (List.range 100) 100 4
         ≠ classificationValSplits (List.range 100) s₂ (List.range 100) 100 4) :=
  ⟨List.Perm.refl _,
   C4_kfold_partition_shuffle_unseeded (List.range 100) (List.Perm.refl _)⟩

/-- C9: `compute_total_loss` normalises by the global batch size, so summing
it across replica sub-batches yields the mean-of-sum
`sum(all per-example losses) / global_batch_size` — and in the spec's
instance (global batch 32, two replicas of 16 whose per-example losses sum
to 1.0 and 3.0) the aggregate is (1+3)/32 = 0.125, not the arithmetic mean
2.0 of the two replica losses. -/
theorem C9_loss_mean_of_sum :
    (∀ {α β : Type} (loss_object : α → β → List ℚ) (bs : ℚ)
        (batches : List (α × β)),
        (batches.map (fun b => compute_total_loss loss_object bs b.1 b.2)).sum
          = (batches.map (fun b => loss_object b.1 b.2)).flatten.sum / bs) ∧
    compute_total_loss (fun (x : List ℚ) (_ : Unit) => x) 32
        (List.replicate 16 (1/16)) ()
      + compute_total_loss (fun (x : List ℚ) (_ : Unit) => x) 32
          (List.replicate 16 (3/16)) ()
      = 1/8 ∧
    ((1 : ℚ) + 3) / 2 ≠ 1/8 := by
  refine ⟨?_, ?_, by norm_num⟩
  · intro α β loss_object bs batches
    induction batches with
    | nil => simp
    | cons b bs' ih =>
      simp only [compute_total_loss, compute_average_loss] at ih ⊢
      simp only [List.map_cons, List.sum_cons, List.flatten_cons, List.sum_append,
        ih, add_div]
  · norm_num [compute_total_loss, compute_average_loss, List.sum_replicate]

/-- C10: `unfreezeModel` never sets the trainable attribute of a
BatchNormalization layer: whatever the arguments, every position holding a
BatchNormalization layer keeps its original trainable flag in the returned
model. -/
theorem C10_batchnorm_never_unfrozen (model : List Layer)
    (num_input_layers : Nat) (batch_norm : Bool) (num_layers : Nat)
    (fc_layers : Option (List (Option Nat)))
    (dropout_rates : Option (List (Option ℚ))) (unfrozen : List Layer)
    (h : unfreezeModel model num_input_layers batch_norm num_layers fc_layers
          dropout_rates = Except.ok unfrozen)
    (i : Nat) (x : Layer) (hx : model[i]? = some x)
    (hbn : x.kind = LayerKind.batchNorm) :
    unfrozen[i]?.map Layer.trainable = some x.trainable := by
  rcases fc_layers with _ | fcs
  · simp only [unfreezeModel] at h
    injection h with h
    rw [← h]
    exact applyUnfreeze_batchnorm model _ _ i x hx hbn
  · rcases dropout_rates with _ | drs
    · simp only [unfreezeModel] at h
      exact Except.noConfusion h
    · simp only [unfreezeModel] at h
      injection h with h
      rw [← h]
      exact applyUnfreeze_batchnorm model _ _ i x hx hbn

/-- C10 witness: the one-layer BatchNormalization model, run through
`unfreezeModel` with num_layers = 5, keeps its layer frozen. -/
theorem C10_batchnorm_never_unfrozen_witness :
    bnWitnessModel[0]? = some { kind := LayerKind.batchNorm, trainable := false } ∧
    bnWitnessModel[0]?.map Layer.trainable = some false :=
  ⟨rfl,
   C10_batchnorm_never_unfrozen bnWitnessModel 0 false 5 none none bnWitnessModel
     rfl 0 { kind := LayerKind.batchNorm, trainable := false } rfl rfl⟩

end Spellbook
